import Mathlib

/-!
Verification of the multi-platform publish/fetch orchestration layer of the
SocialManager repository.  Every definition below is a shallow embedding of a
function of the TypeScript source; the file reference of each embedding is
given in its doc comment.  External effects (adapter HTTP calls, Math.random,
Date.now, uuid generation) are passed in as explicit parameters.
-/

namespace SocialManager

/-- The `Platform` union type of `src/types/index.ts`. -/
inductive Platform where
  | instagram
  | youtube
  | tiktok
  | facebook
deriving DecidableEq

/-- The order of the four platforms as they appear in the result-map
initializer of `publishToMultiplePlatforms` (`src/api/index.ts`, lines
113-118). -/
def Platform.all : List Platform :=
  [Platform.instagram, Platform.youtube, Platform.tiktok, Platform.facebook]

/-- The `'image' | 'video'` union used for `Post.mediaType`. -/
inductive MediaType where
  | image
  | video
deriving DecidableEq

/-- The `Post.status` union of `src/types/index.ts`. -/
inductive PostStatus where
  | draft
  | scheduled
  | published
  | failed
deriving DecidableEq

/-- The `Post` interface of `src/types/index.ts`.  Dates are modelled as
natural-number timestamps; the optional `mediaFile : File` is modelled by its
name; `platformPostIds` is an optional partial record. -/
structure Post where
  id : String
  content : String
  mediaUrl : Option String := none
  mediaType : Option MediaType := none
  mediaFile : Option String := none
  platforms : List Platform := []
  status : PostStatus := PostStatus.draft
  platformPostIds : Option (Platform → Option String) := none
  createdAt : Nat := 0

/-- The `author` sub-object of the `Comment` interface. -/
structure Author where
  id : String
  name : String
  username : String
  avatarUrl : Option String := none
deriving DecidableEq

/-- The `Comment` interface of `src/types/index.ts`.  The optional moderation
flags are stored as plain booleans (the source only ever writes concrete
booleans into them). -/
structure Comment where
  id : String
  platform : Platform
  postId : String
  platformPostId : String
  platformCommentId : Option String := none
  content : String
  author : Author
  likes : Nat := 0
  createdAt : Nat := 0
  isHidden : Bool := false
  isSpam : Bool := false
  replied : Bool := false
deriving DecidableEq

/-- JavaScript truthiness of an optional string (`undefined` and `''` are
falsy). -/
def optStrTruthy : Option String → Bool
  | some s => !(s == "")
  | none => false

/-! ### Fan-out coordinator (`SocialMediaCoordinator.publishToMultiplePlatforms`,
`src/api/index.ts` lines 110-193) -/

/-- The adapter `createPost` invocations the coordinator can issue, with the
platform-specific payload shapes built in the `switch` of
`publishToMultiplePlatforms`. -/
inductive AdapterCall where
  | instagramCreate (caption : String) (mediaUrl : String) (mediaType : MediaType)
  | youtubeCreate (title : String) (description : String) (mediaUrl : String)
  | tiktokCreate (description : String) (mediaUrl : String)
  | facebookCreateWithFile (content : String) (file : String)
  | facebookCreate (content : String) (mediaUrl : Option String) (mediaType : Option MediaType)
deriving DecidableEq

/-- The platform an adapter call belongs to. -/
def callPlatform : AdapterCall → Platform
  | AdapterCall.instagramCreate _ _ _ => Platform.instagram
  | AdapterCall.youtubeCreate _ _ _ => Platform.youtube
  | AdapterCall.tiktokCreate _ _ => Platform.tiktok
  | AdapterCall.facebookCreateWithFile _ _ => Platform.facebook
  | AdapterCall.facebookCreate _ _ _ => Platform.facebook

/-- The behaviour of the external adapters: an `AdapterCall` either resolves
to a platform post id or rejects (throws). -/
def AdapterEnv : Type := AdapterCall → Except String String

/-- The adapter call `publishToMultiplePlatforms` would issue for one platform,
`none` when the media gate of that platform's `case` fails or when
`apiFactory.getApiService` throws (platform disabled / construction failure,
modelled by `enabled p = false`).  Mirrors the `switch (platform)` at
`src/api/index.ts` lines 128-181. -/
def plannedCall (enabled : Platform → Bool) (post : Post) : Platform → Option AdapterCall
  | Platform.instagram =>
      -- `if (post.mediaUrl && post.mediaType)` (line 130)
      match post.mediaUrl, post.mediaType with
      | some u, some mt =>
          if u == "" then none
          else if enabled Platform.instagram then
            some (AdapterCall.instagramCreate post.content u mt)
          else none
      | _, _ => none
  | Platform.youtube =>
      -- `if (post.mediaUrl && post.mediaType === 'video')` (line 141)
      match post.mediaUrl, post.mediaType with
      | some u, some MediaType.video =>
          if u == "" then none
          else if enabled Platform.youtube then
            some (AdapterCall.youtubeCreate (post.content.take 100) post.content u)
          else none
      | _, _ => none
  | Platform.tiktok =>
      -- `if (post.mediaUrl && post.mediaType === 'video')` (line 152)
      match post.mediaUrl, post.mediaType with
      | some u, some MediaType.video =>
          if u == "" then none
          else if enabled Platform.tiktok then
            some (AdapterCall.tiktokCreate post.content u)
          else none
      | _, _ => none
  | Platform.facebook =>
      -- Facebook has no media gate; `if (post.mediaFile && post.mediaType === 'image')`
      -- selects the direct-upload variant (lines 167-173)
      if enabled Platform.facebook then
        match post.mediaFile, post.mediaType with
        | some f, some MediaType.image =>
            some (AdapterCall.facebookCreateWithFile post.content f)
        | _, _ =>
            some (AdapterCall.facebookCreate post.content post.mediaUrl post.mediaType)
      else none

/-- One iteration of the platform loop: the value recorded into
`results[platform]` and the adapter calls issued.  A rejected adapter call is
caught by the per-platform `catch` (lines 182-185) and recorded as `null`. -/
def publishStep (env : AdapterEnv) (enabled : Platform → Bool) (post : Post)
    (p : Platform) : Option String × List AdapterCall :=
  match plannedCall enabled post p with
  | none => (none, [])
  | some call =>
      match env call with
      | Except.ok pid => (some pid, [call])
      | Except.error _ => (none, [call])

/-- The result map, an association list in the key order of the literal
initializer at lines 113-118. -/
def PublishResults : Type := List (Platform × Option String)

/-- `results` initializer: every platform is present and bound to `null`. -/
def initialResults : PublishResults :=
  [(Platform.instagram, none), (Platform.youtube, none),
   (Platform.tiktok, none), (Platform.facebook, none)]

/-- `results[platform] = v`. -/
def setResult : PublishResults → Platform → Option String → PublishResults
  | [], _, _ => []
  | kv :: rest, p, v => (if kv.fst = p then (kv.fst, v) else kv) :: setResult rest p v

/-- Reading a key of the result map (`some` iff the key is present). -/
def lookupResult : PublishResults → Platform → Option (Option String)
  | [], _ => none
  | kv :: rest, p => if kv.fst = p then some kv.snd else lookupResult rest p

/-- The `for (const platform of post.platforms)` loop, also accumulating the
trace of adapter calls issued. -/
def publishLoop (env : AdapterEnv) (enabled : Platform → Bool) (post : Post) :
    List Platform → PublishResults × List AdapterCall → PublishResults × List AdapterCall
  | [], acc => acc
  | p :: rest, acc =>
      let step := publishStep env enabled post p
      publishLoop env enabled post rest (setResult acc.fst p step.fst, acc.snd ++ step.snd)

/-- `SocialMediaCoordinator.publishToMultiplePlatforms` (lines 110-193):
returns the per-platform result map together with the trace of adapter
`createPost` calls actually issued. -/
def publishToMultiplePlatforms (env : AdapterEnv) (enabled : Platform → Bool)
    (post : Post) : PublishResults × List AdapterCall :=
  publishLoop env enabled post post.platforms (initialResults, [])

/-- The adapter calls of the trace that belong to platform `p`. -/
def callsFor (p : Platform) (calls : List AdapterCall) : List AdapterCall :=
  calls.filter (fun c => callPlatform c = p)

theorem setResult_keys (rs : PublishResults) (p : Platform) (v : Option String) :
    (setResult rs p v).map Prod.fst = rs.map Prod.fst := by
  induction rs with
  | nil => rfl
  | cons kv rest ih =>
      simp only [setResult, List.map_cons]
      by_cases h : kv.fst = p <;> simp [h, ih]

theorem lookupResult_setResult_self (rs : PublishResults) (p : Platform) (v : Option String)
    (h : p ∈ rs.map Prod.fst) :
    lookupResult (setResult rs p v) p = some v := by
  induction rs with
  | nil => simp at h
  | cons kv rest ih =>
      by_cases hk : kv.fst = p
      · simp [lookupResult, setResult, hk]
      · simp only [List.map_cons, List.mem_cons] at h
        rcases h with h | h
        · exact absurd h.symm hk
        · simpa [lookupResult, setResult, hk] using ih h

theorem lookupResult_setResult_ne (rs : PublishResults) (p q : Platform) (v : Option String)
    (h : q ≠ p) :
    lookupResult (setResult rs p v) q = lookupResult rs q := by
  induction rs with
  | nil => rfl
  | cons kv rest ih =>
      by_cases hk : kv.fst = p
      · have hq : ¬ kv.fst = q := fun hc => h (by rw [← hc, hk])
        simp [lookupResult, setResult, hk, hq, ih, Ne.symm h]
      · by_cases hq : kv.fst = q
        · simp [lookupResult, setResult, hk, hq, h]
        · simp [lookupResult, setResult, hk, hq, ih]

theorem publishLoop_keys (env : AdapterEnv) (enabled : Platform → Bool) (post : Post)
    (l : List Platform) (acc : PublishResults × List AdapterCall) :
    (publishLoop env enabled post l acc).fst.map Prod.fst = acc.fst.map Prod.fst := by
  induction l generalizing acc with
  | nil => rfl
  | cons p rest ih =>
      simp only [publishLoop]
      rw [ih, setResult_keys]

theorem publishLoop_lookup (env : AdapterEnv) (enabled : Platform → Bool) (post : Post)
    (p : Platform) (l : List Platform) (acc : PublishResults × List AdapterCall)
    (hacc : p ∈ acc.fst.map Prod.fst) :
    lookupResult (publishLoop env enabled post l acc).fst p
      = if p ∈ l then some (publishStep env enabled post p).fst
        else lookupResult acc.fst p := by
  induction l generalizing acc with
  | nil => simp [publishLoop]
  | cons q rest ih =>
      simp only [publishLoop]
      have hacc' : p ∈ (setResult acc.fst q (publishStep env enabled post q).fst).map Prod.fst := by
        rw [setResult_keys]; exact hacc
      rw [ih _ hacc']
      by_cases hmem : p ∈ rest
      · simp [hmem, List.mem_cons]
      · by_cases hpq : p = q
        · subst hpq
          simp [hmem, lookupResult_setResult_self acc.fst p _ hacc]
        · simp [hmem, hpq, lookupResult_setResult_ne acc.fst q p _ hpq]

theorem publish_lookup (env : AdapterEnv) (enabled : Platform → Bool) (post : Post)
    (p : Platform) :
    lookupResult (publishToMultiplePlatforms env enabled post).fst p
      = if p ∈ post.platforms then some (publishStep env enabled post p).fst
        else some none := by
  have hk : p ∈ initialResults.map Prod.fst := by cases p <;> simp [initialResults]
  rw [publishToMultiplePlatforms, publishLoop_lookup env enabled post p post.platforms _ hk]
  by_cases h : p ∈ post.platforms
  · simp [h]
  · cases p <;> simp [h, lookupResult, initialResults, List.find?]

theorem publish_keys (env : AdapterEnv) (enabled : Platform → Bool) (post : Post) :
    (publishToMultiplePlatforms env enabled post).fst.map Prod.fst = Platform.all := by
  rw [publishToMultiplePlatforms, publishLoop_keys]
  rfl

theorem plannedCall_platform (enabled : Platform → Bool) (post : Post) (p : Platform)
    (call : AdapterCall) (h : plannedCall enabled post p = some call) :
    callPlatform call = p := by
  cases p <;>
    simp only [plannedCall] at h <;>
    (repeat' split at h) <;>
    (try exact Option.noConfusion h) <;>
    (injection h with h2) <;> (subst h2) <;> rfl

theorem publishStep_calls_platform (env : AdapterEnv) (enabled : Platform → Bool)
    (post : Post) (p : Platform) (c : AdapterCall)
    (hc : c ∈ (publishStep env enabled post p).snd) :
    callPlatform c = p := by
  unfold publishStep at hc
  cases hpl : plannedCall enabled post p with
  | none => simp [hpl] at hc
  | some call =>
      have := plannedCall_platform enabled post p call hpl
      rw [hpl] at hc
      cases henv : env call <;> simp [henv] at hc <;> exact hc ▸ this

theorem publishLoop_calls (env : AdapterEnv) (enabled : Platform → Bool) (post : Post)
    (l : List Platform) (acc : PublishResults × List AdapterCall) :
    (publishLoop env enabled post l acc).snd
      = acc.snd ++ l.flatMap (fun q => (publishStep env enabled post q).snd) := by
  induction l generalizing acc with
  | nil => simp [publishLoop]
  | cons q rest ih =>
      simp only [publishLoop, List.flatMap_cons]
      rw [ih]
      simp [List.append_assoc]

theorem publish_callsFor_empty (env : AdapterEnv) (enabled : Platform → Bool) (post : Post)
    (p : Platform) (hplan : plannedCall enabled post p = none) :
    callsFor p (publishToMultiplePlatforms env enabled post).snd = [] := by
  rw [publishToMultiplePlatforms, publishLoop_calls]
  simp only [List.nil_append, callsFor, List.filter_eq_nil_iff]
  intro c hc
  rw [List.mem_flatMap] at hc
  obtain ⟨q, _, hq⟩ := hc
  have hqp := publishStep_calls_platform env enabled post q c hq
  by_cases hqe : q = p
  · subst hqe
    simp [publishStep, hplan] at hq
  · simp [hqp, hqe]

/-- An adapter environment in which every call rejects. -/
def sampleEnvFail : AdapterEnv := fun _ => Except.error "network down"

/-- A post targeting only Instagram, with no media. -/
def postC2 : Post :=
  { id := "p2", content := "hi", platforms := [Platform.instagram] }

/-- C1: for every post `p`, `publishToMultiplePlatforms(p)` never lets an
adapter exception propagate: a platform of `p.platforms` whose adapter call
throws is recorded as `null` while the loop continues (every other platform of
`p.platforms` still gets its own locally-determined outcome recorded), a
platform whose adapter call succeeds is recorded with the id the adapter
returned, and neither outcome depends on the order of `p.platforms`. -/
theorem publish_localizes_adapter_outcomes
    (env : AdapterEnv) (enabled : Platform → Bool) (post : Post) (p : Platform)
    (hp : p ∈ post.platforms) :
    (∀ call e, plannedCall enabled post p = some call → env call = Except.error e →
        lookupResult (publishToMultiplePlatforms env enabled post).fst p = some none)
    ∧ (∀ call pid, plannedCall enabled post p = some call → env call = Except.ok pid →
        lookupResult (publishToMultiplePlatforms env enabled post).fst p = some (some pid))
    ∧ (∀ q, q ∈ post.platforms →
        lookupResult (publishToMultiplePlatforms env enabled post).fst q
          = some (publishStep env enabled post q).fst)
    ∧ (∀ l2, p ∈ l2 →
        lookupResult (publishToMultiplePlatforms env enabled { post with platforms := l2 }).fst p
          = lookupResult (publishToMultiplePlatforms env enabled post).fst p) := by
  refine ⟨?_, ?_, ?_, ?_⟩
  · intro call e hplan henv
    rw [publish_lookup, if_pos hp]
    simp [publishStep, hplan, henv]
  · intro call pid hplan henv
    rw [publish_lookup, if_pos hp]
    simp [publishStep, hplan, henv]
  · intro q hq
    rw [publish_lookup, if_pos hq]
  · intro l2 hl2
    rw [publish_lookup, publish_lookup, if_pos hl2, if_pos hp]
    rfl

/-- The adapter behaviour used in the C1 witness: Instagram rejects, TikTok
resolves. -/
def envC1 : AdapterEnv := fun call =>
  match call with
  | AdapterCall.instagramCreate _ _ _ => Except.error "instagram 500"
  | AdapterCall.tiktokCreate _ _ => Except.ok "tt_1"
  | _ => Except.error "other"

/-- A video post targeting Instagram and TikTok. -/
def postC1 : Post :=
  { id := "p1", content := "hello", mediaUrl := some "https://cdn.example/v.mp4",
    mediaType := some MediaType.video,
    platforms := [Platform.instagram, Platform.tiktok] }

/-- Witness for C1: with Instagram throwing and TikTok succeeding, Instagram is
recorded as `null` and TikTok with the returned id. -/
theorem publish_localizes_adapter_outcomes_witness :
    lookupResult (publishToMultiplePlatforms envC1 (fun _ => true) postC1).fst
        Platform.instagram = some none
    ∧ lookupResult (publishToMultiplePlatforms envC1 (fun _ => true) postC1).fst
        Platform.tiktok = some (some "tt_1") := by
  refine ⟨?_, ?_⟩
  · exact (publish_localizes_adapter_outcomes envC1 (fun _ => true) postC1
      Platform.instagram (by decide)).1
      (AdapterCall.instagramCreate "hello" "https://cdn.example/v.mp4" MediaType.video)
      "instagram 500" rfl rfl
  · exact (publish_localizes_adapter_outcomes envC1 (fun _ => true) postC1
      Platform.tiktok (by decide)).2.1
      (AdapterCall.tiktokCreate "hello" "https://cdn.example/v.mp4") "tt_1" rfl rfl

/-- C2 counterexample: for a post targeting only Instagram, the key set of the
result map is not `p.platforms` — it also contains `youtube` (and the other
untargeted platforms), because the `results` literal at `src/api/index.ts`
lines 113-118 initializes all four keys. -/
theorem publish_result_has_key_outside_platform_set :
    (publishToMultiplePlatforms sampleEnvFail (fun _ => true) postC2).fst.map Prod.fst
        ≠ postC2.platforms
    ∧ Platform.youtube ∈
        (publishToMultiplePlatforms sampleEnvFail (fun _ => true) postC2).fst.map Prod.fst
    ∧ Platform.youtube ∉ postC2.platforms := by
  refine ⟨?_, ?_, ?_⟩ <;> decide

/-- C2 amended: the key set of the result map always equals the full platform
set `[instagram, youtube, tiktok, facebook]`, whatever `p.platforms` is, and
every platform outside `p.platforms` is mapped to `null`. -/
theorem publish_result_keys_are_all_platforms
    (env : AdapterEnv) (enabled : Platform → Bool) (post : Post) :
    (publishToMultiplePlatforms env enabled post).fst.map Prod.fst = Platform.all
    ∧ (∀ p, p ∉ post.platforms →
        lookupResult (publishToMultiplePlatforms env enabled post).fst p = some none) := by
  refine ⟨publish_keys env enabled post, ?_⟩
  intro p hp
  rw [publish_lookup, if_neg hp]

/-- Witness for the amended C2: the untargeted `youtube` key is present and
bound to `null`. -/
theorem publish_result_keys_are_all_platforms_witness :
    lookupResult (publishToMultiplePlatforms sampleEnvFail (fun _ => true) postC2).fst
      Platform.youtube = some none :=
  (publish_result_keys_are_all_platforms sampleEnvFail (fun _ => true) postC2).2
    Platform.youtube (by decide)

/-- C6: when a post's media does not satisfy a platform's media requirement
(Instagram: some media required; YouTube and TikTok: video required), the
coordinator records `null` for that platform without issuing any adapter
`createPost` call for it. -/
theorem publish_media_gate_skips_adapter
    (env : AdapterEnv) (enabled : Platform → Bool) (post : Post) :
    ((optStrTruthy post.mediaUrl = false ∨ post.mediaType = none) →
        plannedCall enabled post Platform.instagram = none
        ∧ (Platform.instagram ∈ post.platforms →
            lookupResult (publishToMultiplePlatforms env enabled post).fst
              Platform.instagram = some none)
        ∧ callsFor Platform.instagram (publishToMultiplePlatforms env enabled post).snd = [])
    ∧ ((optStrTruthy post.mediaUrl = false ∨ post.mediaType ≠ some MediaType.video) →
        plannedCall enabled post Platform.youtube = none
        ∧ (Platform.youtube ∈ post.platforms →
            lookupResult (publishToMultiplePlatforms env enabled post).fst
              Platform.youtube = some none)
        ∧ callsFor Platform.youtube (publishToMultiplePlatforms env enabled post).snd = [])
    ∧ ((optStrTruthy post.mediaUrl = false ∨ post.mediaType ≠ some MediaType.video) →
        plannedCall enabled post Platform.tiktok = none
        ∧ (Platform.tiktok ∈ post.platforms →
            lookupResult (publishToMultiplePlatforms env enabled post).fst
              Platform.tiktok = some none)
        ∧ callsFor Platform.tiktok (publishToMultiplePlatforms env enabled post).snd = []) := by
  have mk : ∀ p : Platform, plannedCall enabled post p = none →
      plannedCall enabled post p = none
      ∧ (p ∈ post.platforms →
          lookupResult (publishToMultiplePlatforms env enabled post).fst p = some none)
      ∧ callsFor p (publishToMultiplePlatforms env enabled post).snd = [] := by
    intro p hplan
    refine ⟨hplan, ?_, publish_callsFor_empty env enabled post p hplan⟩
    intro hp
    rw [publish_lookup, if_pos hp, publishStep, hplan]
  refine ⟨?_, ?_, ?_⟩
  · intro h
    refine mk Platform.instagram ?_
    simp only [plannedCall]
    cases hmu : post.mediaUrl with
    | none => cases post.mediaType <;> rfl
    | some u =>
        cases hmt : post.mediaType with
        | none => rfl
        | some mt =>
            rcases h with h | h
            · rw [hmu] at h
              simp only [optStrTruthy, Bool.not_eq_false'] at h
              simp [h]
            · rw [hmt] at h
              exact absurd h (by simp)
  · intro h
    refine mk Platform.youtube ?_
    simp only [plannedCall]
    cases hmu : post.mediaUrl with
    | none => cases post.mediaType <;> rfl
    | some u =>
        cases hmt : post.mediaType with
        | none => rfl
        | some mt =>
            cases mt with
            | image => rfl
            | video =>
                rcases h with h | h
                · rw [hmu] at h
                  simp only [optStrTruthy, Bool.not_eq_false'] at h
                  simp [h]
                · rw [hmt] at h
                  exact absurd rfl h
  · intro h
    refine mk Platform.tiktok ?_
    simp only [plannedCall]
    cases hmu : post.mediaUrl with
    | none => cases post.mediaType <;> rfl
    | some u =>
        cases hmt : post.mediaType with
        | none => rfl
        | some mt =>
            cases mt with
            | image => rfl
            | video =>
                rcases h with h | h
                · rw [hmu] at h
                  simp only [optStrTruthy, Bool.not_eq_false'] at h
                  simp [h]
                · rw [hmt] at h
                  exact absurd rfl h

/-- A text-only post targeting YouTube. -/
def postC6 : Post := { id := "p6", content := "text only", platforms := [Platform.youtube] }

/-- Witness for C6: a YouTube-targeted post without video media is recorded as
`null` and no YouTube adapter call appears in the trace. -/
theorem publish_media_gate_skips_adapter_witness :
    lookupResult (publishToMultiplePlatforms sampleEnvFail (fun _ => true) postC6).fst
        Platform.youtube = some none
    ∧ callsFor Platform.youtube
        (publishToMultiplePlatforms sampleEnvFail (fun _ => true) postC6).snd = [] := by
  have h := (publish_media_gate_skips_adapter sampleEnvFail (fun _ => true) postC6).2.1
    (Or.inl (by decide))
  exact ⟨h.2.1 (by decide), h.2.2⟩

/-! ### Comments store (`src/store/useCommentsStore.ts`) -/

/-- A `Partial<Comment>` as passed to `updateComment`: every field optional;
an absent field leaves the comment's field unchanged under object spread. -/
structure CommentPatch where
  id : Option String := none
  platform : Option Platform := none
  postId : Option String := none
  platformPostId : Option String := none
  platformCommentId : Option (Option String) := none
  content : Option String := none
  author : Option Author := none
  likes : Option Nat := none
  createdAt : Option Nat := none
  isHidden : Option Bool := none
  isSpam : Option Bool := none
  replied : Option Bool := none

/-- The object spread `{ ...comment, ...data }` of `updateComment`. -/
def applyPatch (c : Comment) (d : CommentPatch) : Comment where
  id := d.id.getD c.id
  platform := d.platform.getD c.platform
  postId := d.postId.getD c.postId
  platformPostId := d.platformPostId.getD c.platformPostId
  platformCommentId := d.platformCommentId.getD c.platformCommentId
  content := d.content.getD c.content
  author := d.author.getD c.author
  likes := d.likes.getD c.likes
  createdAt := d.createdAt.getD c.createdAt
  isHidden := d.isHidden.getD c.isHidden
  isSpam := d.isSpam.getD c.isSpam
  replied := d.replied.getD c.replied

/-- `updateComment` (`useCommentsStore.ts` lines 57-63). -/
def updateComment (cid : String) (d : CommentPatch) (comments : List Comment) : List Comment :=
  comments.map (fun comment => if comment.id = cid then applyPatch comment d else comment)

/-- `deleteComment` (lines 65-69). -/
def deleteComment (cid : String) (comments : List Comment) : List Comment :=
  comments.filter (fun comment => !(comment.id == cid))

/-- `markAsReplied` (lines 71-73). -/
def markAsReplied (cid : String) (comments : List Comment) : List Comment :=
  updateComment cid { replied := some true } comments

/-- `hideComment` (lines 75-77). -/
def hideComment (cid : String) (comments : List Comment) : List Comment :=
  updateComment cid { isHidden := some true } comments

/-- `markAsSpam` (lines 79-81). -/
def markAsSpam (cid : String) (comments : List Comment) : List Comment :=
  updateComment cid { isSpam := some true } comments

/-- `addManyComments` (lines 43-55): appends the batch, with a fresh uuid and
`new Date()` spread over each entry's `id` and `createdAt`. -/
def addManyComments (now : Nat) (fresh : Nat → String) (commentsData : List Comment)
    (comments : List Comment) : List Comment :=
  comments ++ (commentsData.enum.map (fun ic =>
    { ic.snd with id := fresh ic.fst, createdAt := now }))

/-- `clearAllComments` (lines 83-85). -/
def clearAllComments (_comments : List Comment) : List Comment := []

/-- C10: the store mutations are framed.  `updateComment` keeps the length and
order and rewrites exactly the positions whose id matches, merging only the
supplied fields; the three flag mutations change exactly the matching
comment's single flag and nothing else; `deleteComment` removes exactly the
matching comments and keeps the rest in order. -/
theorem comments_store_mutations_are_framed
    (store : List Comment) (cid : String) (d : CommentPatch) (i : Nat) :
    ((updateComment cid d store).length = store.length)
    ∧ ((updateComment cid d store).get? i
        = (store.get? i).map (fun c => if c.id = cid then applyPatch c d else c))
    ∧ ((markAsReplied cid store).get? i
        = (store.get? i).map (fun c => if c.id = cid then { c with replied := true } else c))
    ∧ ((hideComment cid store).get? i
        = (store.get? i).map (fun c => if c.id = cid then { c with isHidden := true } else c))
    ∧ ((markAsSpam cid store).get? i
        = (store.get? i).map (fun c => if c.id = cid then { c with isSpam := true } else c))
    ∧ (deleteComment cid store).Sublist store
    ∧ (∀ c : Comment, c ∈ deleteComment cid store ↔ c ∈ store ∧ c.id ≠ cid) := by
  have hupd : ∀ d : CommentPatch,
      (updateComment cid d store).get? i
        = (store.get? i).map (fun c => if c.id = cid then applyPatch c d else c) := by
    intro d
    simp [updateComment, List.get?_eq_getElem?, List.getElem?_map]
  refine ⟨by simp [updateComment], hupd d, ?_, ?_, ?_, ?_, ?_⟩
  · rw [markAsReplied, hupd]
    rfl
  · rw [hideComment, hupd]
    rfl
  · rw [markAsSpam, hupd]
    rfl
  · exact List.filter_sublist store
  · intro c
    simp [deleteComment, List.mem_filter]

/-- The second comment of the C10 witness store. -/
def commentB : Comment :=
  { id := "b", platform := Platform.instagram, postId := "p", platformPostId := "ig1",
    content := "second", author := { id := "u2", name := "U2", username := "u2" } }

/-- A two-comment store used by the C10 witness. -/
def storeC10 : List Comment :=
  [{ id := "a", platform := Platform.instagram, postId := "p", platformPostId := "ig1",
     content := "first", author := { id := "u1", name := "U1", username := "u1" } },
   commentB]

/-- Witness for C10 at a concrete store: marking `"a"` as replied leaves the
comment `"b"` untouched, and deleting `"a"` keeps `"b"`. -/
theorem comments_store_mutations_are_framed_witness :
    ((markAsReplied "a" storeC10).get? 1 = some commentB)
    ∧ commentB ∈ deleteComment "a" storeC10 := by
  constructor
  · rw [(comments_store_mutations_are_framed storeC10 "a" {} 1).2.2.1]
    decide
  · exact ((comments_store_mutations_are_framed storeC10 "a" {} 0).2.2.2.2.2.2
      commentB).mpr ⟨by decide, by decide⟩

/-! ### String helpers mirroring the JavaScript string operations used by the
source (structural definitions, so concrete instances evaluate) -/

/-- A whitespace character as matched by the JavaScript `\s` class and
`String.prototype.trim` (the characters actually occurring in this code
base). -/
def isWsChar (c : Char) : Bool :=
  c == ' ' || c == '\t' || c == '\n' || c == '\r'

/-- JavaScript `trim()`. -/
def jsTrim (s : String) : String :=
  String.mk ((((s.data.dropWhile isWsChar).reverse).dropWhile isWsChar).reverse)

/-- JavaScript `startsWith(pre)`. -/
def strStartsWith (s pre : String) : Bool :=
  pre.data.isPrefixOf s.data

/-- JavaScript `split(sep)` for a one-character separator, over char lists. -/
def splitOnChar (c : Char) : List Char → List (List Char)
  | [] => [[]]
  | x :: rest =>
      let r := splitOnChar c rest
      if x == c then [] :: r
      else
        match r with
        | [] => [[x]]
        | h :: t => (x :: h) :: t

/-- JavaScript `commentId.split('_')`. -/
def splitUnderscores (s : String) : List String :=
  (splitOnChar '_' s.data).map String.mk

/-! ### Instagram comments cache (`InstagramApiService.getComments`,
`src/api/InstagramApiService.ts` lines 265-311) -/

/-- The raw shape of one element of an Instagram `/comments` response. -/
structure InstagramComment where
  id : String
  text : String
  timestamp : Nat
  username : String
  like_count : Nat
deriving DecidableEq

/-- The `InstagramCommentsResponse` wire shape (paging is not read by the
logic under verification). -/
structure InstagramCommentsResponse where
  data : List InstagramComment
deriving DecidableEq

/-- Association-list read (`Map.get` composed with `Map.has`). -/
def assocFind {β : Type} : List (String × β) → String → Option β
  | [], _ => none
  | kv :: rest, k => if kv.fst == k then some kv.snd else assocFind rest k

/-- `Map.set`: replace the binding when the key exists, append otherwise. -/
def assocSet {β : Type} (m : List (String × β)) (k : String) (v : β) : List (String × β) :=
  match assocFind m k with
  | some _ => m.map (fun kv => if kv.fst == k then (kv.fst, v) else kv)
  | none => m ++ [(k, v)]

/-- `CACHE_TTL = 60000` (line 221). -/
def CACHE_TTL : Nat := 60000

/-- The two private cache maps of `InstagramApiService` (lines 429-430). -/
structure InstagramCommentCacheState where
  commentsCache : List (String × InstagramCommentsResponse) := []
  lastCommentsRefresh : List (String × Nat) := []

/-- The observable outcome of one `getComments` call: the returned (or thrown)
value, the updated cache state, and whether the network refresh was
invoked. -/
structure GetCommentsOutcome where
  result : Except String InstagramCommentsResponse
  state : InstagramCommentCacheState
  refreshCalled : Bool

/-- `InstagramApiService.getComments` (lines 265-311).  `api` is the outcome
the `/comments` endpoint would give if called now; `now` is `Date.now()`. -/
def instagramGetComments (st : InstagramCommentCacheState) (mediaId : String)
    (forceRefresh : Bool) (now : Nat)
    (api : Except String InstagramCommentsResponse) : GetCommentsOutcome :=
  if !forceRefresh
      && (assocFind st.commentsCache mediaId).isSome
      && (assocFind st.lastCommentsRefresh mediaId).isSome
      && decide (now - ((assocFind st.lastCommentsRefresh mediaId).getD 0) < CACHE_TTL) then
    { result := Except.ok ((assocFind st.commentsCache mediaId).getD { data := [] }),
      state := st, refreshCalled := false }
  else
    match api with
    | Except.ok resp =>
        { result := Except.ok resp,
          state := { commentsCache := assocSet st.commentsCache mediaId resp,
                     lastCommentsRefresh := assocSet st.lastCommentsRefresh mediaId now },
          refreshCalled := true }
    | Except.error e =>
        if (assocFind st.commentsCache mediaId).isSome then
          { result := Except.ok ((assocFind st.commentsCache mediaId).getD { data := [] }),
            state := st, refreshCalled := true }
        else if strStartsWith mediaId "ig_post_" then
          { result := Except.ok { data := [] }, state := st, refreshCalled := true }
        else
          { result := Except.error e, state := st, refreshCalled := true }

theorem assocFind_assocSet_self {β : Type} (m : List (String × β)) (k : String) (v : β) :
    assocFind (assocSet m k v) k = some v := by
  induction m with
  | nil => simp [assocSet, assocFind]
  | cons kv rest ih =>
      by_cases hk : kv.fst == k
      · have hk2 : kv.fst = k := by simpa using hk
        simp [assocSet, assocFind, hk, hk2]
      · simp only [assocSet, assocFind, hk] at ih ⊢
        cases hfind : assocFind rest k with
        | none =>
            rw [hfind] at ih
            simp only [cond_false, Bool.false_eq_true, if_neg]
            simpa [assocFind, hk, hfind] using ih
        | some w =>
            rw [hfind] at ih
            simpa [assocFind, hk, hfind] using ih

/-- C5: the stale-on-error cache policy of `getComments`.  After a successful
refresh for key `k` at time `t0`, a second read within the TTL is served from
the cache without calling the endpoint (so the refresh ran exactly once across
the two reads); when a refresh fails and a value is stored for `k`, that stale
value is returned instead of an error; an error is propagated only when no
value is stored for `k`. -/
theorem instagram_comments_cache_policy
    (st0 : InstagramCommentCacheState) (mediaId : String) (now1 now2 : Nat)
    (resp : InstagramCommentsResponse) (api2 : Except String InstagramCommentsResponse)
    (hmiss : assocFind st0.commentsCache mediaId = none)
    (hfresh : now2 - now1 < CACHE_TTL) :
    ((instagramGetComments st0 mediaId false now1 (Except.ok resp)).refreshCalled = true
      ∧ (instagramGetComments st0 mediaId false now1 (Except.ok resp)).result = Except.ok resp)
    ∧ ((instagramGetComments
          (instagramGetComments st0 mediaId false now1 (Except.ok resp)).state
          mediaId false now2 api2).refreshCalled = false
      ∧ (instagramGetComments
          (instagramGetComments st0 mediaId false now1 (Except.ok resp)).state
          mediaId false now2 api2).result = Except.ok resp)
    ∧ (∀ (st : InstagramCommentCacheState) (v : InstagramCommentsResponse) (now : Nat)
          (e : String), assocFind st.commentsCache mediaId = some v →
          (instagramGetComments st mediaId false now (Except.error e)).result = Except.ok v)
    ∧ (∀ (st : InstagramCommentCacheState) (now : Nat) (fr : Bool)
          (api : Except String InstagramCommentsResponse) (e : String),
          (instagramGetComments st mediaId fr now api).result = Except.error e →
          assocFind st.commentsCache mediaId = none) := by
  have h1 : instagramGetComments st0 mediaId false now1 (Except.ok resp)
      = { result := Except.ok resp,
          state := { commentsCache := assocSet st0.commentsCache mediaId resp,
                     lastCommentsRefresh := assocSet st0.lastCommentsRefresh mediaId now1 },
          refreshCalled := true } := by
    rw [instagramGetComments]
    simp [hmiss]
  refine ⟨⟨by rw [h1], by rw [h1]⟩, ?_, ?_, ?_⟩
  · rw [h1]
    constructor <;>
      simp [instagramGetComments, assocFind_assocSet_self, hfresh]
  · intro st v now e hv
    rw [instagramGetComments]
    split
    · simp [hv]
    · simp [hv]
  · intro st now fr api e herr
    cases hfind : assocFind st.commentsCache mediaId with
    | none => rfl
    | some v =>
        simp only [instagramGetComments] at herr
        split at herr
        · simp at herr
        · cases api with
          | ok r => simp at herr
          | error e2 => simp [hfind] at herr

/-- Witness for C5: starting from an empty cache, a first read at `t=0`
refreshes, a second read at `t=100` with a failing endpoint is served from the
cache without refreshing. -/
theorem instagram_comments_cache_policy_witness :
    ((instagramGetComments {} "m1" false 0
        (Except.ok { data := [{ id := "c9", text := "hey", timestamp := 5,
                                username := "alice", like_count := 2 }] })).refreshCalled = true)
    ∧ ((instagramGetComments
          (instagramGetComments {} "m1" false 0
            (Except.ok { data := [{ id := "c9", text := "hey", timestamp := 5,
                                    username := "alice", like_count := 2 }] })).state
          "m1" false 100 (Except.error "boom")).result
        = Except.ok { data := [{ id := "c9", text := "hey", timestamp := 5,
                                 username := "alice", like_count := 2 }] }) := by
  have h := instagram_comments_cache_policy {} "m1" 0 100
    { data := [{ id := "c9", text := "hey", timestamp := 5,
                 username := "alice", like_count := 2 }] }
    (Except.error "boom") rfl (by decide)
  exact ⟨h.1.1, h.2.1.2⟩

/-! ### `InstagramApiService.replyToComment`
(`src/api/InstagramApiService.ts` lines 319-402) -/

/-- The two POST endpoints `replyToComment` can target: the threaded-reply
sub-resource of a comment, or the post-level comments collection. -/
inductive InstagramEndpoint where
  | repliesOf (commentId : String)
  | commentsOf (mediaId : String)
deriving DecidableEq

/-- `cleanCommentId` (lines 340-342): when the id contains an underscore, keep
only the part after the last one (`split('_').pop() || commentId`). -/
def cleanCommentIdOf (commentId : String) : String :=
  if commentId.data.contains '_' then
    match (splitUnderscores commentId).getLast? with
    | some last => if last == "" then commentId else last
    | none => commentId
  else commentId

/-- `InstagramApiService.replyToComment` (lines 319-402): the result of the
call together with the endpoint the request was sent to (`none` when validation
rejected the call before any request).  The branch at line 347 is
`if (commentId)` — JavaScript truthiness — so a present-but-empty comment id
`""` takes the top-level-comment branch, exactly like an absent one. -/
def replyToComment (env : InstagramEndpoint → Except String String)
    (mediaId commentText : String) (commentId : Option String) :
    Except String String × Option InstagramEndpoint :=
  if mediaId == "" then
    (Except.error "Media ID is required to reply to a comment", none)
  else if jsTrim commentText == "" then
    (Except.error "Comment text cannot be empty", none)
  else if strStartsWith mediaId "ig_post_" then
    (Except.error "Cannot comment on simulated posts.", none)
  else
    match commentId with
    | some cid =>
        if cid == "" then
          -- `if (commentId)` is false for the empty string (line 347)
          (env (InstagramEndpoint.commentsOf mediaId),
           some (InstagramEndpoint.commentsOf mediaId))
        else
          (env (InstagramEndpoint.repliesOf (cleanCommentIdOf cid)),
           some (InstagramEndpoint.repliesOf (cleanCommentIdOf cid)))
    | none =>
        (env (InstagramEndpoint.commentsOf mediaId),
         some (InstagramEndpoint.commentsOf mediaId))

/-- C7 counterexample: a present-but-empty `parentCommentId` is routed to the
post-level `/comments` endpoint, not to a `/replies` sub-resource — the branch
at `InstagramApiService.ts` line 347 is `if (commentId)`, and the empty string
is falsy, so the original unqualified present-means-threaded-reply claim fails
at `parentCommentId = ""`. -/
theorem replyToComment_empty_parent_id_posts_top_level :
    (replyToComment (fun _ => Except.ok "new_comment") "17895695668004550" "hi"
        (some "")).snd = some (InstagramEndpoint.commentsOf "17895695668004550")
    ∧ (replyToComment (fun _ => Except.ok "new_comment") "17895695668004550" "hi"
        (some "")).snd ≠ some (InstagramEndpoint.repliesOf (cleanCommentIdOf "")) := by
  refine ⟨by rfl, by decide⟩

/-- C7 amended: when `parentCommentId` is present and non-empty (truthy), the
request goes to that comment's `/replies` sub-resource (after the id-cleaning
step, which is the identity on ids without an underscore); when it is absent —
or present but empty, which the truthiness check treats as absent — the
request goes to the post's `/comments` endpoint. -/
theorem replyToComment_endpoint_selection
    (env : InstagramEndpoint → Except String String) (mediaId commentText : String)
    (cid : String)
    (hm : (mediaId == "") = false)
    (ht : (jsTrim commentText == "") = false)
    (hs : strStartsWith mediaId "ig_post_" = false)
    (hc : (cid == "") = false) :
    (replyToComment env mediaId commentText (some cid)).snd
        = some (InstagramEndpoint.repliesOf (cleanCommentIdOf cid))
    ∧ (replyToComment env mediaId commentText none).snd
        = some (InstagramEndpoint.commentsOf mediaId)
    ∧ (replyToComment env mediaId commentText (some "")).snd
        = some (InstagramEndpoint.commentsOf mediaId)
    ∧ (cid.data.contains '_' = false → cleanCommentIdOf cid = cid) := by
  refine ⟨?_, ?_, ?_, ?_⟩
  · simp [replyToComment, hm, ht, hs, hc]
  · simp [replyToComment, hm, ht, hs]
  · simp [replyToComment, hm, ht, hs]
  · intro hcid
    rw [cleanCommentIdOf, if_neg (by simpa using hcid)]

/-- Witness for the amended C7 (end-to-end scenario C): `replyToComment(postId,
"hi", parentId = "42")` targets the `/replies` sub-resource of comment `42`,
not the post-level comments endpoint. -/
theorem replyToComment_endpoint_selection_witness :
    (replyToComment (fun _ => Except.ok "new_comment") "17895695668004550" "hi"
        (some "42")).snd = some (InstagramEndpoint.repliesOf "42")
    ∧ (replyToComment (fun _ => Except.ok "new_comment") "17895695668004550" "hi"
        none).snd = some (InstagramEndpoint.commentsOf "17895695668004550") := by
  have h := replyToComment_endpoint_selection (fun _ => Except.ok "new_comment")
    "17895695668004550" "hi" "42" (by decide) (by decide) (by decide) (by decide)
  exact ⟨by rw [h.1]; rfl, h.2.1⟩

/-! ### `createPost` of the Instagram and TikTok adapters
(`src/api/InstagramApiService.ts` lines 91-182; TikTok adapter lines 251-266
of its source file) -/

/-- The network requests Instagram `createPost` can issue. -/
inductive InstagramPostCall where
  | createContainer (caption : String) (imageUrl videoUrl : Option String) (mediaType : String)
  | publishContainer (creationId : String)
deriving DecidableEq

/-- `InstagramApiService.createPost` (lines 91-182).  `r` is the random suffix
`Math.random().toString(36).substring(2, 15)` would produce.  A `data:` media
URL short-circuits into a simulated success with a fabricated
`ig_post_`-prefixed id and no API call; otherwise the two-step
container/publish flow runs (error-message reshaping of the catch block is
omitted: errors pass through). -/
def instagramCreatePost (env : InstagramPostCall → Except String String) (r : String)
    (caption : String) (mediaUrl : String) (mediaType : MediaType) :
    Except String String :=
  if strStartsWith mediaUrl "data:" then
    Except.ok ("ig_post_" ++ r)
  else
    match env (InstagramPostCall.createContainer caption
        (if mediaType = MediaType.image then some mediaUrl else none)
        (if mediaType = MediaType.video then some mediaUrl else none)
        (if mediaType = MediaType.image then "IMAGE" else "VIDEO")) with
    | Except.error e => Except.error e
    | Except.ok containerId =>
        env (InstagramPostCall.publishContainer containerId)

/-- `TikTokApiService.createPost` (lines 251-266 of the TikTok adapter): any
failure of the `/videos` upload is swallowed and a fabricated
`TIKTOK_SIMULATED_`-prefixed id is returned as a success. -/
def tiktokCreatePost (env : String → String → Except String String) (r : String)
    (description mediaUrl : String) : Except String String :=
  match env description mediaUrl with
  | Except.ok videoId => Except.ok videoId
  | Except.error _ => Except.ok ("TIKTOK_SIMULATED_" ++ r)

/-- C4 fails on the code: for a non-public `data:` media reference the
Instagram adapter returns a fabricated `ig_post_` id as a successful result
without any upload (the environment here rejects every call, so a genuine
upload attempt could not have succeeded), and the TikTok adapter turns any
upload failure into a fabricated `TIKTOK_SIMULATED_` success. -/
theorem createPost_fabricates_success_ids :
    instagramCreatePost (fun _ => Except.error "no network") "abc123"
        "hello" "data:image/png;base64,iVBORw0KGgo" MediaType.image
      = Except.ok "ig_post_abc123"
    ∧ tiktokCreatePost (fun _ _ => Except.error "HTTP 500") "xyz789"
        "my clip" "https://cdn.example/v.mp4"
      = Except.ok "TIKTOK_SIMULATED_xyz789" := by
  constructor
  · rw [instagramCreatePost, if_pos (by decide)]
    rfl
  · rfl

/-! ### `getAccountStats` (`src/api/InstagramApiService.ts` lines 435-498 and
the TikTok adapter lines 318-371 with `generateMockStats` lines 398-433) -/

/-- The `'post' | 'comment'` tag of a recent-activity entry. -/
inductive ActivityType where
  | post
  | comment
deriving DecidableEq

/-- One entry of `PlatformStats.recentActivity`. -/
structure Activity where
  date : Nat
  type : ActivityType
  content : String
deriving DecidableEq

/-- The `PlatformStats` interface of `src/types/index.ts`; the engagement rate
is the JavaScript number `totalComments / totalPosts`, modelled in `ℚ`. -/
structure PlatformStats where
  platform : Platform
  totalPosts : Nat
  totalComments : Nat
  engagementRate : ℚ
  recentActivity : List Activity

/-- One element of the Instagram `/me/media` response. -/
structure InstagramMediaItem where
  id : String
  media_type : String
  timestamp : Nat
  caption : Option String := none
deriving DecidableEq

/-- Insertion step of the `recentActivity.sort((a, b) => b.date - a.date)`
descending sort. -/
def insertByDateDesc (a : Activity) : List Activity → List Activity
  | [] => [a]
  | b :: rest => if a.date ≤ b.date then b :: insertByDateDesc a rest else a :: b :: rest

/-- The comparator-based descending sort of `recentActivity`. -/
def sortByDateDesc (l : List Activity) : List Activity :=
  l.foldr insertByDateDesc []

/-- `InstagramApiService.getAccountStats` (lines 435-498).  `mediaResult` is
what `getMedia` resolves to; `commentsEnv` is what `getComments(post.id)`
resolves to per post. -/
def instagramGetAccountStats (mediaResult : Except String (List InstagramMediaItem))
    (commentsEnv : String → Except String InstagramCommentsResponse) :
    Except String PlatformStats :=
  match mediaResult with
  | Except.error e => Except.error e
  | Except.ok posts =>
      if posts.length = 0 then
        Except.ok { platform := Platform.instagram, totalPosts := 0, totalComments := 0,
                    engagementRate := 0, recentActivity := [] }
      else
        let processed := (posts.take 5).foldl
          (fun (acc : Nat × List Activity) post =>
            match commentsEnv post.id with
            | Except.ok comments =>
                (acc.fst + comments.data.length,
                 acc.snd
                   ++ [{ date := post.timestamp, type := ActivityType.post,
                         content := match post.caption with
                           | some c => if c == "" then "Image post" else c
                           | none => "Image post" }]
                   ++ (match comments.data.head? with
                       | some c0 => [{ date := c0.timestamp, type := ActivityType.comment,
                                       content := c0.text }]
                       | none => []))
            | Except.error _ => acc)
          (0, [])
        Except.ok { platform := Platform.instagram,
                    totalPosts := posts.length,
                    totalComments := processed.fst,
                    engagementRate := if posts.length > 0 then
                        (processed.fst : ℚ) / (posts.length : ℚ) else 0,
                    recentActivity := (sortByDateDesc processed.snd).take 5 }

/-- The `statistics` block of a TikTok video resource. -/
structure TikTokStatistics where
  comment_count : Nat
  like_count : Nat
  view_count : Nat
  share_count : Nat
deriving DecidableEq

/-- One element of the TikTok `/user/videos` response. -/
structure TikTokVideo where
  id : String
  description : String
  create_time : Nat
  statistics : TikTokStatistics
deriving DecidableEq

/-- `TikTokApiService.generateMockStats` (lines 398-433): `r1` and `r2` stand
for the two `Math.floor(Math.random() * n)` draws, already reduced mod their
ranges. -/
def tiktokGenerateMockStats (r1 r2 : Nat) (now : Nat) : PlatformStats :=
  let totalPosts := r1 % 30 + 5
  let totalComments := r2 % 500 + 50
  { platform := Platform.tiktok,
    totalPosts := totalPosts,
    totalComments := totalComments,
    engagementRate := (totalComments : ℚ) / (totalPosts : ℚ),
    recentActivity := sortByDateDesc
      ((List.range 3).map (fun i =>
          { date := now - i * 86400000, type := ActivityType.post,
            content := "Mock TikTok video" })
        ++ (List.range 2).map (fun i =>
          { date := now - (i * 43200000 + 10000), type := ActivityType.comment,
            content := "Mock comment" })) }

/-- `TikTokApiService.getAccountStats` (lines 318-371): on a successful videos
fetch the engagement rate is the guarded `totalComments / totalVideos`; on any
failure `generateMockStats` is returned. -/
def tiktokGetAccountStats (videosResult : Except String (List TikTokVideo))
    (commentsEnv : String → Except String (List InstagramComment))
    (r1 r2 now : Nat) : PlatformStats :=
  match videosResult with
  | Except.error _ => tiktokGenerateMockStats r1 r2 now
  | Except.ok videos =>
      let totalVideos := videos.length
      let processed := (videos.take 5).foldl
        (fun (acc : Nat × List Activity) video =>
          let acc1 := (acc.fst + video.statistics.comment_count,
            acc.snd ++ [{ date := video.create_time * 1000, type := ActivityType.post,
                          content := if video.description == "" then "TikTok video"
                            else video.description }])
          match commentsEnv video.id with
          | Except.ok comments =>
              match comments.head? with
              | some c0 =>
                  (acc1.fst,
                   acc1.snd ++ [{ date := c0.timestamp * 1000,
                                  type := ActivityType.comment,
                                  content := c0.text }])
              | none => acc1
          | Except.error _ => acc1)
        (0, [])
      { platform := Platform.tiktok,
        totalPosts := totalVideos,
        totalComments := processed.fst,
        engagementRate := if totalVideos > 0 then
            (processed.fst : ℚ) / (totalVideos : ℚ) else 0,
        recentActivity := (sortByDateDesc processed.snd).take 5 }

/-- C8: every `getAccountStats` result satisfies
`engagementRate = totalComments / totalPosts` when `totalPosts > 0` and
`engagementRate = 0` when `totalPosts = 0` — the division is guarded, so the
division-by-zero case is never computed.  This holds for the Instagram adapter
and for both branches of the TikTok adapter. -/
theorem accountStats_engagement_guarded
    (mediaResult : Except String (List InstagramMediaItem))
    (commentsEnv : String → Except String InstagramCommentsResponse)
    (st : PlatformStats)
    (videosResult : Except String (List TikTokVideo))
    (tkComments : String → Except String (List InstagramComment))
    (r1 r2 now : Nat)
    (hok : instagramGetAccountStats mediaResult commentsEnv = Except.ok st) :
    (st.engagementRate = if st.totalPosts = 0 then 0
        else (st.totalComments : ℚ) / (st.totalPosts : ℚ))
    ∧ ((tiktokGetAccountStats videosResult tkComments r1 r2 now).engagementRate
        = if (tiktokGetAccountStats videosResult tkComments r1 r2 now).totalPosts = 0 then 0
          else ((tiktokGetAccountStats videosResult tkComments r1 r2 now).totalComments : ℚ)
            / ((tiktokGetAccountStats videosResult tkComments r1 r2 now).totalPosts : ℚ)) := by
  constructor
  · cases mediaResult with
    | error e => exact absurd hok (by simp [instagramGetAccountStats])
    | ok posts =>
        by_cases hlen : posts.length = 0
        · rw [instagramGetAccountStats] at hok
          rw [if_pos hlen] at hok
          cases hok
          simp
        · rw [instagramGetAccountStats] at hok
          rw [if_neg hlen] at hok
          cases hok
          simp [hlen, Nat.pos_of_ne_zero hlen]
  · cases videosResult with
    | error e =>
        have h5 : (r1 % 30 + 5) ≠ 0 := by omega
        simp [tiktokGetAccountStats, tiktokGenerateMockStats, h5]
    | ok videos =>
        by_cases hlen : videos.length = 0
        · simp [tiktokGetAccountStats, hlen]
        · simp [tiktokGetAccountStats, hlen, Nat.pos_of_ne_zero hlen]

/-- Witness for C8: an account with no posts gets an engagement rate of `0`
(not a division error), and a failing TikTok videos fetch yields the mock
stats whose rate is the ratio of its own counts. -/
theorem accountStats_engagement_guarded_witness :
    (instagramGetAccountStats (Except.ok []) (fun _ => Except.error "x")
      = Except.ok { platform := Platform.instagram, totalPosts := 0, totalComments := 0,
                    engagementRate := 0, recentActivity := [] })
    ∧ ({ platform := Platform.instagram, totalPosts := 0, totalComments := 0,
         engagementRate := 0, recentActivity := [] } : PlatformStats).engagementRate = 0 := by
  refine ⟨rfl, ?_⟩
  have h := accountStats_engagement_guarded (Except.ok []) (fun _ => Except.error "x")
    { platform := Platform.instagram, totalPosts := 0, totalComments := 0,
      engagementRate := 0, recentActivity := [] }
    (Except.error "offline") (fun _ => Except.error "x") 0 0 0 rfl
  rw [h.1]
  rfl

/-! ### Comment fetch cycle (`fetchAllComments` and
`extractCommentsFromStats`, `src/pages/Comments.tsx` lines 43-130 and
136-308) -/

/-- `replace(/\s+/g, '_')`: every maximal whitespace run becomes one
underscore.  The boolean tracks whether the previous character belonged to a
run. -/
def collapseWsAux : Bool → List Char → List Char
  | _, [] => []
  | inRun, c :: rest =>
      if isWsChar c then
        if inRun then collapseWsAux true rest
        else '_' :: collapseWsAux true rest
      else c :: collapseWsAux false rest

/-- `content.substring(0, 10).replace(/\s+/g, '_')` acts on a string. -/
def collapseWs (s : String) : String := String.mk (collapseWsAux false s.data)

/-- `substring(0, n)`. -/
def strTake (s : String) (n : Nat) : String := String.mk (s.data.take n)

/-- The published-and-real Instagram post filter used at `Comments.tsx` lines
59-65 and 190-196: published, has a platform-post-id record, targets
instagram, and the instagram id is truthy and not a simulated `ig_post_`
id. -/
def isRealInstagramPost (post : Post) : Bool :=
  post.status == PostStatus.published
    && post.platformPostIds.isSome
    && post.platforms.contains Platform.instagram
    && (match post.platformPostIds with
        | some pids =>
            match pids Platform.instagram with
            | some pid => !(pid == "") && !(strStartsWith pid "ig_post_")
            | none => false
        | none => false)

/-- The JavaScript falsy-chain `a || b || ''` over optional strings. -/
def firstTruthyStr : List (Option String) → String
  | [] => ""
  | o :: rest =>
      match o with
      | some s => if s == "" then firstTruthyStr rest else s
      | none => firstTruthyStr rest

/-- `extractCommentsFromStats` (`Comments.tsx` lines 43-130): derives
approximate comments from the Instagram recent-activity feed.  `storeComments`
is the `comments` array captured by the React closure (used only for the
duplicate-suppression lookup). -/
def extractCommentsFromStats (stats : Option PlatformStats) (posts : List Post)
    (storeComments : List Comment) : List Comment :=
  match stats with
  | none => []
  | some st =>
      let commentActivities := st.recentActivity.filter
        (fun a => a.type == ActivityType.comment)
      let instagramPosts := posts.filter isRealInstagramPost
      if instagramPosts.length = 0 then []
      else
        let fallbackPostId : Option String :=
          instagramPosts.head?.bind (fun p => p.platformPostIds.bind
            (fun pids => pids Platform.instagram))
        commentActivities.foldl (fun acc activity =>
          let matchingPost := instagramPosts.find?
            (fun post => post.createdAt < activity.date)
          let postId := firstTruthyStr [matchingPost.map Post.id]
          let platformPostId := firstTruthyStr
            [matchingPost.bind (fun p => p.platformPostIds.bind
               (fun pids => pids Platform.instagram)),
             fallbackPostId]
          let stableId := "instagram_comment_"
            ++ collapseWs (strTake activity.content 10) ++ "_" ++ toString activity.date
          let existing := storeComments.find? (fun c =>
            c.id == stableId
              || (c.content == activity.content && c.platform == Platform.instagram))
          if existing.isNone && !(activity.content == "") then
            acc ++ [{ id := stableId, platform := Platform.instagram,
                      postId := postId, platformPostId := platformPostId,
                      platformCommentId := some ("stats_comment_" ++ stableId),
                      content := activity.content,
                      author := { id := "unknown", name := "Instagram User",
                                  username := "instagram_user", avatarUrl := none },
                      likes := 0, createdAt := activity.date,
                      isHidden := false, isSpam := false, replied := false }]
          else acc) []

/-- The mapping of one Instagram API comment into the shared `Comment` model
(`Comments.tsx` lines 221-247); `none` models the `return null` skip of
invalid entries. -/
def mapInstagramComment (now : Nat) (postLocalId postPid : String)
    (c : InstagramComment) : Option Comment :=
  if c.id == "" || c.text == "" then none
  else some
    { id := c.id, platform := Platform.instagram, postId := postLocalId,
      platformPostId := postPid, platformCommentId := some c.id,
      content := c.text,
      author := { id := if c.username == "" then "unknown" else c.username,
                  name := c.username,
                  username := if c.username == "" then "instagram_user" else c.username,
                  avatarUrl := none },
      likes := c.like_count,
      createdAt := if c.timestamp = 0 then now else c.timestamp,
      isHidden := false, isSpam := false, replied := false }

/-- The authoritative per-post Instagram comment fetch loop (`Comments.tsx`
lines 201-255); a per-post fetch error is caught and that post is skipped. -/
def fetchInstagramApiComments (api : String → Except String InstagramCommentsResponse)
    (now : Nat) (posts : List Post) : List Comment :=
  (posts.filter isRealInstagramPost).foldl (fun acc post =>
    match post.platformPostIds with
    | none => acc
    | some pids =>
        match pids Platform.instagram with
        | none => acc
        | some pid =>
            if pid == "" then acc
            else
              match api pid with
              | Except.error _ => acc
              | Except.ok resp =>
                  acc ++ resp.data.filterMap (mapInstagramComment now post.id pid)) []

/-- The platform name as it appears in the dedup key template literal. -/
def platformKey : Platform → String
  | Platform.instagram => "instagram"
  | Platform.youtube => "youtube"
  | Platform.tiktok => "tiktok"
  | Platform.facebook => "facebook"

/-- The dedup key `` `${comment.platform}_${comment.platformPostId}_${comment.content}` ``
(`Comments.tsx` line 280). -/
def dedupKey (c : Comment) : String :=
  platformKey c.platform ++ "_" ++ c.platformPostId ++ "_" ++ c.content

/-- One `uniqueComments.set` step guarded by `uniqueComments.has` (lines
283-288): first writer wins. -/
def dedupInsert (m : List (String × Comment)) (c : Comment) : List (String × Comment) :=
  if (m.find? (fun kv => kv.fst == dedupKey c)).isSome then m
  else m ++ [(dedupKey c, c)]

/-- The `allFetchedComments.forEach` dedup loop over an initial map. -/
def dedupAux (batch : List Comment) (m : List (String × Comment)) :
    List (String × Comment) :=
  batch.foldl dedupInsert m

/-- `Array.from(uniqueComments.values())` after deduplicating the batch
(insertion order, first occurrence of each key). -/
def dedupByKey (batch : List Comment) : List Comment :=
  (dedupAux batch []).map Prod.snd

/-- The external inputs of one fetch cycle: the settings toggles, the
already-refreshed Instagram platform stats, the Instagram comments endpoint,
`Date.now()`, and the uuid stream of `addManyComments`. -/
structure FetchInputs where
  platformsEnabled : Platform → Bool
  instagramStats : Option PlatformStats
  api : String → Except String InstagramCommentsResponse
  now : Nat
  fresh : Nat → String

/-- The `allFetchedComments` batch of one cycle: the activity-derived stats
comments (pushed first, line 180) followed by the per-post API comments
(pushed later, line 249); the API block runs only when instagram is enabled
and its stats exist (line 185). -/
def fetchBatch (inp : FetchInputs) (posts : List Post) (store : List Comment) :
    List Comment :=
  extractCommentsFromStats inp.instagramStats posts store
    ++ (if inp.platformsEnabled Platform.instagram && inp.instagramStats.isSome then
          fetchInstagramApiComments inp.api inp.now posts
        else [])

/-- `fetchAllComments` (`Comments.tsx` lines 136-308) as a store transformer:
the orphan check (lines 138-141), the enabled-platforms early return (lines
161-166), and — when the batch is non-empty — `clearAllComments()` followed by
`addManyComments` of the deduplicated batch (lines 266-300).  The
`extractCommentsFromStats` closure reads the `comments` captured at render
time, i.e. the original `store`. -/
def fetchAllComments (inp : FetchInputs) (posts : List Post) (store : List Comment) :
    List Comment :=
  let cleared := if store.length > 0 && posts.length == 0 then [] else store
  let enabledList := Platform.all.filter inp.platformsEnabled
  if enabledList.isEmpty then cleared
  else
    let batch := fetchBatch inp posts store
    if batch.length > 0 then
      let newComments := dedupByKey batch
      if newComments.length > 0 then
        addManyComments inp.now inp.fresh newComments (clearAllComments cleared)
      else clearAllComments cleared
    else cleared

/-- The fields of a stored comment that `addManyComments` leaves untouched and
that identify a merge candidate: platform, platform post id, native comment
id, content. -/
def keptFields (c : Comment) : Platform × String × Option String × String :=
  (c.platform, c.platformPostId, c.platformCommentId, c.content)

theorem dedupAux_cons (c : Comment) (rest : List Comment)
    (m : List (String × Comment)) :
    dedupAux (c :: rest) m = dedupAux rest (dedupInsert m c) := rfl

theorem find?_append_isSome {α : Type} (p : α → Bool) (l1 l2 : List α) :
    ((l1 ++ l2).find? p).isSome = ((l1.find? p).isSome || (l2.find? p).isSome) := by
  induction l1 with
  | nil => simp
  | cons a l ih =>
      cases h : p a <;> simp [List.find?_cons, h, ih]

theorem dedupAux_filter (k : String) (batch : List Comment) :
    ∀ m : List (String × Comment),
      ((dedupAux batch m).map Prod.snd).filter (fun c => dedupKey c == k)
        = ((m.map Prod.snd).filter (fun c => dedupKey c == k))
          ++ (if (m.find? (fun kv => kv.fst == k)).isSome then []
              else ((batch.filter (fun c => dedupKey c == k)).head?).toList) := by
  induction batch with
  | nil =>
      intro m
      cases h : (m.find? (fun kv => kv.fst == k)).isSome <;> simp [dedupAux, h]
  | cons c rest ih =>
      intro m
      rw [dedupAux_cons, ih (dedupInsert m c)]
      cases hfound : (m.find? (fun kv => kv.fst == dedupKey c)).isSome with
      | true =>
          have hins : dedupInsert m c = m := by rw [dedupInsert, if_pos hfound]
          rw [hins]
          cases hk : dedupKey c == k with
          | true =>
              have hkk : dedupKey c = k := by simpa using hk
              subst hkk
              rw [if_pos hfound, if_pos hfound]
          | false =>
              have hfc : (c :: rest).filter (fun x => dedupKey x == k)
                  = rest.filter (fun x => dedupKey x == k) := by
                simp [List.filter_cons, hk]
              rw [hfc]
      | false =>
          have hins : dedupInsert m c = m ++ [(dedupKey c, c)] := by
            rw [dedupInsert, if_neg (by simp [hfound])]
          rw [hins]
          cases hk : dedupKey c == k with
          | true =>
              have hkk : dedupKey c = k := by simpa using hk
              subst hkk
              simp [find?_append_isSome, hfound, List.find?_cons, List.filter_cons,
                List.filter_append]
          | false =>
              have hcond : ((m ++ [(dedupKey c, c)]).find? (fun kv => kv.fst == k)).isSome
                  = (m.find? (fun kv => kv.fst == k)).isSome := by
                rw [find?_append_isSome]
                simp [List.find?_cons, hk]
              simp only [List.map_append, List.filter_append, List.filter_cons, hk,
                List.map_cons, List.map_nil]
              rw [hcond]
              simp [List.filter_cons, hk]

theorem dedupByKey_filter (batch : List Comment) (k : String) :
    (dedupByKey batch).filter (fun c => dedupKey c == k)
      = ((batch.filter (fun c => dedupKey c == k)).head?).toList := by
  have h := dedupAux_filter k batch []
  simpa [dedupByKey] using h

theorem find?_key_isSome_iff (m : List (String × Comment)) (k : String) :
    (m.find? (fun kv => kv.fst == k)).isSome = true ↔ k ∈ m.map Prod.fst := by
  induction m with
  | nil => simp
  | cons kv rest ih =>
      by_cases h : (kv.fst == k) = true
      · have h2 : kv.fst = k := by simpa using h
        simp [List.find?_cons, h, h2]
      · have h2 : ¬ kv.fst = k := by simpa using h
        simp [List.find?_cons, h, ih, Ne.symm h2]

theorem dedupAux_key_eq (batch : List Comment) :
    ∀ m : List (String × Comment), (∀ kv ∈ m, dedupKey kv.snd = kv.fst) →
      ∀ kv ∈ dedupAux batch m, dedupKey kv.snd = kv.fst := by
  induction batch with
  | nil => intro m h; simpa [dedupAux] using h
  | cons c rest ih =>
      intro m h
      rw [dedupAux_cons]
      apply ih
      intro kv hkv
      rw [dedupInsert] at hkv
      split at hkv
      · exact h kv hkv
      · rcases List.mem_append.mp hkv with h1 | h1
        · exact h kv h1
        · simp only [List.mem_singleton] at h1
          subst h1
          rfl

theorem dedupAux_keys_nodup (batch : List Comment) :
    ∀ m : List (String × Comment), (m.map Prod.fst).Nodup →
      ((dedupAux batch m).map Prod.fst).Nodup := by
  induction batch with
  | nil => intro m h; simpa [dedupAux] using h
  | cons c rest ih =>
      intro m h
      rw [dedupAux_cons]
      apply ih
      rw [dedupInsert]
      split
      · exact h
      · rename_i hfound
        have hnotmem : dedupKey c ∉ m.map Prod.fst := by
          intro hmem
          exact hfound ((find?_key_isSome_iff m (dedupKey c)).mpr hmem)
        rw [List.map_append]
        refine List.Nodup.append h (by simp) ?_
        intro x hx hx2
        simp only [List.map_cons, List.map_nil, List.mem_singleton] at hx2
        subst hx2
        exact hnotmem hx

theorem dedupAux_length_ge (batch : List Comment) :
    ∀ m : List (String × Comment), m.length ≤ (dedupAux batch m).length := by
  induction batch with
  | nil => intro m; simp [dedupAux]
  | cons c rest ih =>
      intro m
      rw [dedupAux_cons]
      refine le_trans ?_ (ih (dedupInsert m c))
      rw [dedupInsert]
      split
      · exact le_refl _
      · simp

theorem dedupAux_length_le (batch : List Comment) :
    ∀ m : List (String × Comment), (dedupAux batch m).length ≤ m.length + batch.length := by
  induction batch with
  | nil => intro m; simp [dedupAux]
  | cons c rest ih =>
      intro m
      rw [dedupAux_cons]
      refine le_trans (ih _) ?_
      rw [dedupInsert]
      split
      · simp only [List.length_cons]
        omega
      · simp only [List.length_append, List.length_cons, List.length_nil]
        omega

theorem dedupByKey_keys_nodup (batch : List Comment) :
    ((dedupByKey batch).map dedupKey).Nodup := by
  have hB := dedupAux_key_eq batch [] (by simp)
  have hN := dedupAux_keys_nodup batch [] (by simp)
  have hmap : (dedupByKey batch).map dedupKey = (dedupAux batch []).map Prod.fst := by
    rw [dedupByKey, List.map_map]
    exact List.map_congr_left (fun kv hkv => hB kv hkv)
  rw [hmap]
  exact hN

theorem dedupByKey_length_le (batch : List Comment) :
    (dedupByKey batch).length ≤ batch.length := by
  have h := dedupAux_length_le batch []
  simpa [dedupByKey] using h

theorem dedupByKey_pos (batch : List Comment) (h : 0 < batch.length) :
    0 < (dedupByKey batch).length := by
  cases batch with
  | nil => simp at h
  | cons c rest =>
      rw [dedupByKey, dedupAux_cons]
      have h1 := dedupAux_length_ge rest (dedupInsert [] c)
      have h2 : (dedupInsert [] c).length = 1 := by simp [dedupInsert]
      simp only [List.length_map]
      omega

theorem addMany_nil_length (now : Nat) (fresh : Nat → String) (l : List Comment) :
    (addManyComments now fresh l []).length = l.length := by
  simp [addManyComments]

theorem addMany_nil_map_dedupKey (now : Nat) (fresh : Nat → String) (l : List Comment) :
    (addManyComments now fresh l []).map dedupKey = l.map dedupKey := by
  rw [addManyComments, List.nil_append, List.map_map]
  have h1 : (dedupKey ∘ fun ic : Nat × Comment =>
      { ic.snd with id := fresh ic.fst, createdAt := now }) = dedupKey ∘ Prod.snd := rfl
  rw [h1, ← List.map_map, List.enum_map_snd]

theorem enumFrom_filter_keptFields (k : String) (now : Nat) (fresh : Nat → String) :
    ∀ (l : List Comment) (n : Nat),
      (((List.enumFrom n l).map (fun ic =>
          { ic.snd with id := fresh ic.fst, createdAt := now })).filter
        (fun c => dedupKey c == k)).map keptFields
      = (l.filter (fun c => dedupKey c == k)).map keptFields := by
  intro l
  induction l with
  | nil => intro n; simp
  | cons c rest ih =>
      intro n
      have hupd : dedupKey { c with id := fresh n, createdAt := now } = dedupKey c := rfl
      have hkept : keptFields { c with id := fresh n, createdAt := now } = keptFields c := rfl
      simp only [List.enumFrom, List.map_cons, List.filter_cons, hupd]
      cases h : dedupKey c == k <;> simp [h, hkept, ih]

theorem addMany_nil_filter_keptFields (k : String) (now : Nat) (fresh : Nat → String)
    (l : List Comment) :
    ((addManyComments now fresh l []).filter (fun c => dedupKey c == k)).map keptFields
      = (l.filter (fun c => dedupKey c == k)).map keptFields := by
  rw [addManyComments, List.nil_append]
  exact enumFrom_filter_keptFields k now fresh l 0

theorem fetchAllComments_of_nonempty_batch (inp : FetchInputs) (posts : List Post)
    (store : List Comment)
    (hen : (Platform.all.filter inp.platformsEnabled).isEmpty = false)
    (hbatch : 0 < (fetchBatch inp posts store).length) :
    fetchAllComments inp posts store
      = addManyComments inp.now inp.fresh (dedupByKey (fetchBatch inp posts store)) [] := by
  have hdedup := dedupByKey_pos _ hbatch
  simp only [fetchAllComments, hen, Bool.false_eq_true, if_false]
  rw [if_pos hbatch, if_pos hdedup]
  rfl

/-- The real published Instagram post used by the C3 and C9 scenarios. -/
def postR : Post :=
  { id := "local1", content := "caption", platforms := [Platform.instagram],
    status := PostStatus.published,
    platformPostIds := some (fun p => if p = Platform.instagram then some "12345" else none),
    createdAt := 0 }

/-- Instagram platform stats carrying one comment activity with content
`"A"`. -/
def statsWithA : PlatformStats :=
  { platform := Platform.instagram, totalPosts := 1, totalComments := 1,
    engagementRate := 1,
    recentActivity := [{ date := 10, type := ActivityType.comment, content := "A" }] }

/-- C3 scenario inputs: the API comment has the same content `"A"` as the
activity-derived comment, so the two candidates share a dedup key. -/
def inpC3 : FetchInputs :=
  { platformsEnabled := fun p => p == Platform.instagram,
    instagramStats := some statsWithA,
    api := fun pid => if pid == "12345" then
        Except.ok { data := [{ id := "c1", text := "A", timestamp := 20,
                               username := "alice", like_count := 3 }] }
      else Except.error "404",
    now := 100,
    fresh := fun i => "uuid-" ++ toString i }

/-- C9 scenario inputs: the API comment content `"B"` differs from the
activity-derived comment `"A"`. -/
def inpC9 : FetchInputs :=
  { platformsEnabled := fun p => p == Platform.instagram,
    instagramStats := some statsWithA,
    api := fun pid => if pid == "12345" then
        Except.ok { data := [{ id := "c1", text := "B", timestamp := 20,
                               username := "alice", like_count := 3 }] }
      else Except.error "404",
    now := 100,
    fresh := fun i => "uuid-" ++ toString i }

/-- C3 counterexample: an activity-derived comment and an authoritative API
comment (native id `c1`) share the dedup key `instagram_12345_A`; the merged
store has exactly one entry for that key, but it is the approximate
stats-derived one (its `platformCommentId` is the `stats_comment_` marker, and
no entry carries the native id `c1`) — the batch lists the approximate
candidate first and the Map insert is first-wins, so the authoritative entry
is dropped. -/
theorem fetch_merge_keeps_approximate_entry :
    ((fetchAllComments inpC3 [postR] []).filter
        (fun c => dedupKey c == "instagram_12345_A")).length = 1
    ∧ ((fetchAllComments inpC3 [postR] []).filter
        (fun c => dedupKey c == "instagram_12345_A")).map Comment.platformCommentId
      = [some "stats_comment_instagram_comment_A_10"]
    ∧ some "c1" ∉ (fetchAllComments inpC3 [postR] []).map Comment.platformCommentId
    ∧ (fetchBatch inpC3 [postR] []).map Comment.platformCommentId
      = [some "stats_comment_instagram_comment_A_10", some "c1"] :=
  ⟨rfl, rfl, by decide, rfl⟩

/-- C3 amended: the merge produces exactly one entry per dedup key, namely the
first candidate of the batch bearing that key (with its platform, platform
post id, native comment id and content preserved; `addManyComments` refreshes
only `id` and `createdAt`).  Since activity-derived comments are pushed into
the batch before the authoritative API comments, an approximate entry sharing
a key with an authoritative one is the one kept. -/
theorem fetch_merge_unique_first_wins
    (inp : FetchInputs) (posts : List Post) (store : List Comment) (k : String)
    (hen : (Platform.all.filter inp.platformsEnabled).isEmpty = false)
    (hbatch : 0 < (fetchBatch inp posts store).length) :
    ((fetchAllComments inp posts store).filter (fun c => dedupKey c == k)).map keptFields
      = (((fetchBatch inp posts store).filter
          (fun c => dedupKey c == k)).head?).toList.map keptFields := by
  rw [fetchAllComments_of_nonempty_batch inp posts store hen hbatch]
  rw [addMany_nil_filter_keptFields, dedupByKey_filter]

/-- Witness for the amended C3 at the concrete C3 scenario. -/
theorem fetch_merge_unique_first_wins_witness :
    ((fetchAllComments inpC3 [postR] []).filter
        (fun c => dedupKey c == "instagram_12345_A")).map keptFields
      = (((fetchBatch inpC3 [postR] []).filter
          (fun c => dedupKey c == "instagram_12345_A")).head?).toList.map keptFields :=
  fetch_merge_unique_first_wins inpC3 [postR] [] "instagram_12345_A" (by decide) (by decide)

/-- C9 counterexample: with identical upstream data (one activity-derived
comment `"A"`, one API comment `"B"`), the first cycle stores 2 comments but
running the same cycle again stores only 1 — the activity comment is
suppressed at extraction because its content is already in the store, yet the
store is then cleared, so the sizes of the two runs differ. -/
theorem fetch_cycle_size_changes_between_runs :
    (fetchAllComments inpC9 [postR] []).length = 2
    ∧ (fetchAllComments inpC9 [postR] (fetchAllComments inpC9 [postR] [])).length = 1 :=
  ⟨rfl, rfl⟩

/-- C9 amended: a fetch cycle with a non-empty batch replaces the store by the
deduplicated fresh batch (clear, then insert), so repeated reconciliation
never accumulates duplicates — the resulting store has pairwise-distinct dedup
keys and is no larger than the fresh batch — but the final size is not in
general preserved between two runs with identical upstream data. -/
theorem fetch_cycle_never_accumulates
    (inp : FetchInputs) (posts : List Post) (store : List Comment)
    (hen : (Platform.all.filter inp.platformsEnabled).isEmpty = false)
    (hbatch : 0 < (fetchBatch inp posts store).length) :
    ((fetchAllComments inp posts store).map dedupKey).Nodup
    ∧ (fetchAllComments inp posts store).length ≤ (fetchBatch inp posts store).length := by
  rw [fetchAllComments_of_nonempty_batch inp posts store hen hbatch]
  constructor
  · rw [addMany_nil_map_dedupKey]
    exact dedupByKey_keys_nodup _
  · rw [addMany_nil_length]
    exact dedupByKey_length_le _

/-- Witness for the amended C9 at the concrete C9 scenario. -/
theorem fetch_cycle_never_accumulates_witness :
    ((fetchAllComments inpC9 [postR] []).map dedupKey).Nodup
    ∧ (fetchAllComments inpC9 [postR] []).length ≤ (fetchBatch inpC9 [postR] []).length :=
  fetch_cycle_never_accumulates inpC9 [postR] [] (by decide) (by decide)

end SocialManager
